import Mathlib

/-!
Verification development for the OpenCv-Flam camera pipeline
(`app/src/main/cpp/processor.cpp`, `renderer.cpp`, `native-lib.cpp`).

Shallow embedding: the processor is modelled as a pure function on a
processor-buffer state, the renderer as a record of its fields with one
Lean function per member function, and the JNI boundary as functions on a
heap of live renderer handles.  Machine bytes are `Nat`s clamped to
`[0, 255]` by the colorspace operations; fallible boundary operations
return `Except`.  OpenCV library routines (`cvtColor`, `Canny`) are not
part of the repository and are modelled from the spec where noted.
-/

namespace OpenCvFlam

/-- A byte value; colorspace operations keep it in `[0, 255]`. -/
abbrev Byte := Nat

/-- One RGBA pixel, as produced by the 4-channel conversions. -/
structure RGBA where
  r : Byte
  g : Byte
  b : Byte
  a : Byte
deriving DecidableEq

/-- Channel selector matching the RGBA byte order of the flat output
buffer (`rgbaOut` in `processFrame`). -/
def RGBA.channel (c : RGBA) : Nat → Byte
  | 0 => c.r
  | 1 => c.g
  | 2 => c.b
  | _ => c.a

/-- Saturate an integer intermediate to a byte, as OpenCV's
`saturate_cast<uchar>` does. -/
def clamp255 (x : Int) : Byte := (max 0 (min 255 x)).toNat

/-- Modelled from the spec: `cv::cvtColor(..., COLOR_YUV2RGBA_NV21)` is
OpenCV library code, not part of this repository.  The spec calls it a
"deterministic, well-defined colorspace conversion" of the NV21 layout;
modelled as the ITU-R BT.601 integer conversion (20-bit fixed point,
video-range luma, saturating), with the alpha channel set to 255. -/
def yuvPix (ySample v u : Byte) : RGBA :=
  let yv : Int := 1220542 * max 0 ((ySample : Int) - 16)
  let vv : Int := (v : Int) - 128
  let uv : Int := (u : Int) - 128
  { r := clamp255 ((yv + 1673527 * vv + 524288).fdiv 1048576)
  , g := clamp255 ((yv - 852492 * vv - 409993 * uv + 524288).fdiv 1048576)
  , b := clamp255 ((yv + 2116026 * uv + 524288).fdiv 1048576)
  , a := 255 }

/-- Modelled from the spec: `cv::cvtColor(..., COLOR_RGBA2GRAY)` is OpenCV
library code, not part of this repository.  The spec calls it
"desaturate"; modelled as OpenCV's fixed-point BT.601 luma weights
(0.299, 0.587, 0.114 scaled by 2^14, rounded). -/
def rgba2gray (c : RGBA) : Byte :=
  (4899 * c.r + 9617 * c.g + 1868 * c.b + 8192) / 16384

/-- Modelled from the spec: `cv::cvtColor(..., COLOR_GRAY2RGBA)` is OpenCV
library code, not part of this repository.  The spec fixes its behaviour
via the Grayscale clause "output must be `(L,L,L,255)` for every pixel":
the gray value is replicated into the three color channels and alpha is
set to 255. -/
def gray2rgba (g : Byte) : RGBA := { r := g, g := g, b := g, a := 255 }

/-- Replicate-border sampling index: clamp an integer coordinate into
`[0, n-1]` (OpenCV `BORDER_REPLICATE`, the default border for gradients
at the image edge). -/
def clampi (n : Nat) (i : Int) : Nat := (max 0 (min ((n : Int) - 1) i)).toNat

/-- Sample a single-channel image at integer coordinates with replicated
borders. -/
def pix (img : Nat → Nat → Byte) (w h : Nat) (x y : Int) : Int :=
  img (clampi w x) (clampi h y)

/-- Horizontal Sobel derivative at `(x, y)` (3×3 kernel, replicate
border). -/
def sobelX (img : Nat → Nat → Byte) (w h : Nat) (x y : Nat) : Int :=
  (pix img w h ((x : Int) + 1) ((y : Int) - 1)
    + 2 * pix img w h ((x : Int) + 1) (y : Int)
    + pix img w h ((x : Int) + 1) ((y : Int) + 1))
  - (pix img w h ((x : Int) - 1) ((y : Int) - 1)
    + 2 * pix img w h ((x : Int) - 1) (y : Int)
    + pix img w h ((x : Int) - 1) ((y : Int) + 1))

/-- Vertical Sobel derivative at `(x, y)` (3×3 kernel, replicate
border). -/
def sobelY (img : Nat → Nat → Byte) (w h : Nat) (x y : Nat) : Int :=
  (pix img w h ((x : Int) - 1) ((y : Int) + 1)
    + 2 * pix img w h (x : Int) ((y : Int) + 1)
    + pix img w h ((x : Int) + 1) ((y : Int) + 1))
  - (pix img w h ((x : Int) - 1) ((y : Int) - 1)
    + 2 * pix img w h (x : Int) ((y : Int) - 1)
    + pix img w h ((x : Int) + 1) ((y : Int) - 1))

/-- L1 gradient magnitude `|gx| + |gy|` (OpenCV `Canny` default,
`L2gradient = false`). -/
def gradMag (img : Nat → Nat → Byte) (w h : Nat) (x y : Nat) : Int :=
  |sobelX img w h x y| + |sobelY img w h x y|

/-- The eight 8-connected neighbour offsets used by hysteresis. -/
def neighborOffsets : List (Int × Int) :=
  [(-1, -1), (0, -1), (1, -1), (-1, 0), (1, 0), (-1, 1), (0, 1), (1, 1)]

/-- Whether some 8-connected neighbour of `(x, y)` has gradient magnitude
above the high threshold. -/
def hasStrongNeighbor (img : Nat → Nat → Byte) (w h : Nat) (high : Int)
    (x y : Nat) : Bool :=
  neighborOffsets.any fun d =>
    decide (gradMag img w h (clampi w ((x : Int) + d.1)) (clampi h ((y : Int) + d.2)) > high)

/-- Modelled from the spec: `cv::Canny` is OpenCV library code, not part
of this repository.  The spec describes it as "a two-threshold
gradient-based edge detector" producing "a binary-like map of strong
intensity transitions", edges "rendered as full-intensity pixels on a
zero background": a pixel is an edge (255) when its Sobel L1 gradient
magnitude exceeds the high threshold, or exceeds the low threshold while
an 8-connected neighbour exceeds the high threshold; otherwise 0. -/
def cannyPix (img : Nat → Nat → Byte) (w h : Nat) (low high : Int)
    (x y : Nat) : Byte :=
  if gradMag img w h x y > high then 255
  else if gradMag img w h x y > low ∧ hasStrongNeighbor img w h high x y = true then 255
  else 0

/-- Luma sample of an NV21 buffer: the full-resolution Y plane occupies
bytes `0 .. w*h - 1`, row-major. -/
def nv21Y (d : Nat → Byte) (w : Nat) (x y : Nat) : Byte := d (y * w + x)

/-- V sample of an NV21 buffer: the half-resolution chroma plane starts
at byte `w*h` and interleaves V then U. -/
def nv21V (d : Nat → Byte) (w h : Nat) (x y : Nat) : Byte :=
  d (w * h + (y / 2) * w + 2 * (x / 2))

/-- U sample of an NV21 buffer (one byte after the paired V sample). -/
def nv21U (d : Nat → Byte) (w h : Nat) (x y : Nat) : Byte :=
  d (w * h + (y / 2) * w + 2 * (x / 2) + 1)

/-- The NV21 → RGBA conversion as a pixel function: sample Y, V, U per
the NV21 layout and convert pointwise. -/
def nv21ToRgba (d : Nat → Byte) (w h : Nat) : Nat → Nat → RGBA :=
  fun x y => yuvPix (nv21Y d w x y) (nv21V d w h x y) (nv21U d w h x y)

/-- The processing modes of `processor.cpp` (`enum ProcessingMode`). -/
inductive ProcessingMode
  | passthrough
  | grayscale
  | canny
deriving DecidableEq

/-- `static const ProcessingMode PROCESSING_MODE = MODE_CANNY;` -/
def PROCESSING_MODE : ProcessingMode := .canny

/-- Identifies each heap buffer the pipeline allocates. -/
inductive BufferId
  | rgbaBuffer
  | yuvMat
  | rgbaMat
  | grayMat
  | edgesMat
deriving DecidableEq

/-- A heap event: allocation of a named buffer of a given byte size, or
its deallocation. -/
inductive HeapEvent
  | alloc (id : BufferId) (size : Nat)
  | free (id : BufferId)
deriving DecidableEq

/-- The processor's reusable buffer state (`processor.cpp`'s
`thread_local` mats and the `initialized` flag; the pipeline runs on the
single rendering thread, so the thread's buffers are modelled as part of
the pipeline instance's state).  Mat contents are index functions; a mat
that has not been written yet holds unspecified bytes, modelled as 0. -/
structure ProcState where
  inited : Bool
  yuvMat : Nat → Nat → Byte
  rgbaMat : Nat → Nat → RGBA
  grayMat : Nat → Nat → Byte
  edgesMat : Nat → Nat → Byte

/-- Processor-buffer state before the first frame: nothing allocated. -/
def freshProc : ProcState :=
  { inited := false
  , yuvMat := fun _ _ => 0
  , rgbaMat := fun _ _ => { r := 0, g := 0, b := 0, a := 0 }
  , grayMat := fun _ _ => 0
  , edgesMat := fun _ _ => 0 }

/-- `initializeBuffers` in `processor.cpp`: on the first call allocate the
four reusable mats (`yuvMat` of `(height + height/2) × width` bytes,
`rgbaMat` of `height × width × 4`, `grayMat` and `edgesMat` of
`height × width`) and set the flag; afterwards do nothing.  The second
component lists the heap events performed by the call. -/
def initBuffers (w h : Nat) (ps : ProcState) : ProcState × List HeapEvent :=
  if ps.inited then (ps, [])
  else
    ({ inited := true
     , yuvMat := fun _ _ => 0
     , rgbaMat := fun _ _ => { r := 0, g := 0, b := 0, a := 0 }
     , grayMat := fun _ _ => 0
     , edgesMat := fun _ _ => 0 },
     [ HeapEvent.alloc .yuvMat ((h + h / 2) * w)
     , HeapEvent.alloc .rgbaMat (w * h * 4)
     , HeapEvent.alloc .grayMat (w * h)
     , HeapEvent.alloc .edgesMat (w * h) ])

/-- Flatten a pixel function into the row-major RGBA byte buffer layout
used by `rgbaOut` (`std::memcpy(rgbaOut, rgbaMat.data, width*height*4)`). -/
def flattenRGBA (img : Nat → Nat → RGBA) (w : Nat) : Nat → Byte :=
  fun i => (img (i / 4 % w) (i / 4 / w)).channel (i % 4)

/-- `processFrame` in `processor.cpp`.  `ok` is the failure oracle for
the OpenCV calls inside the `try` block: when `false`, a `cv::Exception`
(or `std::exception`) is thrown somewhere before the final `memcpy`, is
caught by the handlers at the bottom of the function, and the function
returns normally having written nothing to `rgbaOut` (the `memcpy` into
`rgbaOut` is the last statement of the `try` block; the partially
written intermediate mats are not observed by any caller and are
modelled as unchanged).  `initializeBuffers` runs before the `try`
block, so its allocation happens even on a failing cycle.  Returns the
new buffer state, the output buffer contents, and the heap events of the
call. -/
def processFrame (ok : Bool) (nv21 : Nat → Byte) (w h : Nat)
    (ps : ProcState) (rgbaOut : Nat → Byte) :
    ProcState × (Nat → Byte) × List HeapEvent :=
  let (ps1, ev) := initBuffers w h ps
  if ok then
    let rgba := nv21ToRgba nv21 w h
    match PROCESSING_MODE with
    | .passthrough =>
        ({ ps1 with rgbaMat := rgba },
         fun i => if i < w * h * 4 then flattenRGBA rgba w i else rgbaOut i,
         ev)
    | .grayscale =>
        let gray := fun x y => rgba2gray (rgba x y)
        let rgba2 := fun x y => gray2rgba (gray x y)
        ({ ps1 with rgbaMat := rgba2, grayMat := gray },
         fun i => if i < w * h * 4 then flattenRGBA rgba2 w i else rgbaOut i,
         ev)
    | .canny =>
        let gray := fun x y => rgba2gray (rgba x y)
        let edges := fun x y => cannyPix gray w h 80 160 x y
        let rgba2 := fun x y => gray2rgba (edges x y)
        ({ ps1 with rgbaMat := rgba2, grayMat := gray, edgesMat := edges },
         fun i => if i < w * h * 4 then flattenRGBA rgba2 w i else rgbaOut i,
         ev)
  else (ps1, rgbaOut, ev)

/-- The GL commands `onDrawFrame` can issue, recorded as a trace. -/
inductive GLCmd
  | clearColor (r g b a : Nat)
  | clear
  | useProgram (p : Nat)
  | activeTexture (unit : Nat)
  | bindTexture (t : Nat)
  | uniform1i (loc val : Nat)
  | bindBuffer (b : Nat)
  | enableVertexAttrib (loc : Nat)
  | vertexAttribPointer (loc size stride offset : Nat)
  | drawArrays (mode first count : Nat)
  | disableVertexAttrib (loc : Nat)
deriving DecidableEq

/-- The `Renderer` class state (`renderer.cpp`): configured preview
resolution, screen size, GL handles (0 = absent), attribute/uniform
locations, the owned RGBA display buffer's contents, the
`hasFrame_` flag, and the GL-side texture contents (`none` until pixels
are uploaded; `glTexImage2D` with a null pointer leaves them
undefined).  `glNames` models the GL context's name allocator so
re-creation hands out fresh handles.  The thread's processor buffers
(`proc`) ride along, as the pipeline runs on one rendering thread. -/
structure RendererState where
  previewWidth : Nat
  previewHeight : Nat
  screenWidth : Nat
  screenHeight : Nat
  program : Nat
  texture : Nat
  vbo : Nat
  glNames : Nat
  positionLoc : Nat
  texCoordLoc : Nat
  textureLoc : Nat
  rgbaBuffer : Nat → Byte
  hasFrame : Bool
  textureContents : Option (Nat → Byte)
  viewport : Nat × Nat
  proc : ProcState

/-- The `Renderer` constructor: store the preview dimensions, zero the GL
handles, set `hasFrame_ = false`, and allocate the
`previewWidth * previewHeight * 4`-byte RGBA buffer (`new uint8_t[...]`,
contents uninitialized — supplied here as the arbitrary `buf`).  The
second component is the constructor's heap event. -/
def mkRenderer (pw ph : Nat) (buf : Nat → Byte) :
    RendererState × List HeapEvent :=
  ({ previewWidth := pw
   , previewHeight := ph
   , screenWidth := 0
   , screenHeight := 0
   , program := 0
   , texture := 0
   , vbo := 0
   , glNames := 0
   , positionLoc := 0
   , texCoordLoc := 0
   , textureLoc := 0
   , rgbaBuffer := buf
   , hasFrame := false
   , textureContents := none
   , viewport := (0, 0)
   , proc := freshProc },
   [HeapEvent.alloc .rgbaBuffer (pw * ph * 4)])

namespace Renderer

/-- `Renderer::onSurfaceCreated`: compile/link the shader program, fetch
the attribute and uniform locations, create the texture (storage at
preview size, contents undefined — hence `none`), and create the quad
VBO.  GL object names are drawn fresh from the context's allocator. -/
def onSurfaceCreated (st : RendererState) : RendererState :=
  { st with
    program := st.glNames + 1
  , texture := st.glNames + 2
  , vbo := st.glNames + 3
  , glNames := st.glNames + 3
  , positionLoc := 0
  , texCoordLoc := 1
  , textureLoc := 0
  , textureContents := none }

/-- `Renderer::onSurfaceChanged`: record the screen size and update the
GL viewport; nothing else changes. -/
def onSurfaceChanged (w h : Nat) (st : RendererState) : RendererState :=
  { st with screenWidth := w, screenHeight := h, viewport := (w, h) }

/-- `Renderer::onCameraFrame`: reject a dimension mismatch (log and
return, state untouched); otherwise run `processFrame` on the raw NV21
bytes into the owned RGBA buffer, upload that buffer to the texture with
`glTexSubImage2D` (in-place pixel replacement), and set
`hasFrame_ = true`.  The input is taken through a `const uint8_t*` and
never written; the second component returns the native byte-array copy
after the call (always the input).  The third component lists the heap
events of the call. -/
def onCameraFrame (ok : Bool) (nv21 : List Nat) (w h : Nat)
    (st : RendererState) :
    RendererState × List Nat × List HeapEvent :=
  if w ≠ st.previewWidth ∨ h ≠ st.previewHeight then (st, nv21, [])
  else
    let (ps1, out, ev) :=
      processFrame ok (fun i => nv21.getD i 0) w h st.proc st.rgbaBuffer
    ({ st with
       proc := ps1
     , rgbaBuffer := out
     , textureContents := some out
     , hasFrame := true },
     nv21, ev)

/-- `Renderer::onDrawFrame`: clear to opaque black; if no frame has been
uploaded yet, stop there; otherwise bind program, texture (unit 0), and
VBO, enable the two interleaved attributes (stride 16 bytes, offsets 0
and 8), draw the 4-vertex triangle strip (GL mode 5), and disable the
attributes.  The member reads state and never writes it. -/
def onDrawFrame (st : RendererState) : RendererState × List GLCmd :=
  (st,
   [GLCmd.clearColor 0 0 0 1, GLCmd.clear] ++
   if st.hasFrame then
     [ GLCmd.useProgram st.program
     , GLCmd.activeTexture 0
     , GLCmd.bindTexture st.texture
     , GLCmd.uniform1i st.textureLoc 0
     , GLCmd.bindBuffer st.vbo
     , GLCmd.enableVertexAttrib st.positionLoc
     , GLCmd.vertexAttribPointer st.positionLoc 2 16 0
     , GLCmd.enableVertexAttrib st.texCoordLoc
     , GLCmd.vertexAttribPointer st.texCoordLoc 2 16 8
     , GLCmd.drawArrays 5 0 4
     , GLCmd.disableVertexAttrib st.positionLoc
     , GLCmd.disableVertexAttrib st.texCoordLoc ]
   else [])

end Renderer

/-- One pipeline operation, for quantifying over arbitrary call
sequences on a renderer instance. -/
inductive Op
  | surfaceCreated
  | surfaceChanged (w h : Nat)
  | cameraFrame (ok : Bool) (data : List Nat) (w h : Nat)
  | drawFrame

/-- Apply one operation to a renderer state. -/
def step (op : Op) (st : RendererState) : RendererState :=
  match op with
  | .surfaceCreated => Renderer.onSurfaceCreated st
  | .surfaceChanged w h => Renderer.onSurfaceChanged w h st
  | .cameraFrame ok data w h => (Renderer.onCameraFrame ok data w h st).1
  | .drawFrame => (Renderer.onDrawFrame st).1

/-- Apply a sequence of operations, front first. -/
def runOps (ops : List Op) (st : RendererState) : RendererState :=
  ops.foldl (fun s op => step op s) st

/-- Errors the JNI boundary model can surface.  `invalidDelete` marks the
undefined behaviour of `delete` on a nonzero handle that is not a live
allocation (double delete); `danglingHandle` marks dereferencing such a
handle. -/
inductive JniError
  | invalidDelete
  | danglingHandle
deriving DecidableEq

/-- The heap of live renderer instances, keyed by their (nonzero) handle
values; `none` means no live allocation at that handle. -/
structure World where
  renderers : Nat → Option RendererState

/-- The modes of `ReleaseByteArrayElements`. -/
inductive ReleaseMode
  | commitAndFree
  | commit
  | abort

/-- `ReleaseByteArrayElements` on the producer's array: `JNI_ABORT`
discards the native copy, so the producer sees its original bytes; the
commit modes copy the native bytes back. -/
def releaseByteArray (mode : ReleaseMode) (orig native : List Nat) : List Nat :=
  match mode with
  | .abort => orig
  | _ => native

/-- `nativeRelease` (`native-lib.cpp`): for a nonzero handle the source
performs `delete` unconditionally; deleting a pointer that is not a live
allocation is undefined behaviour (double delete), surfaced here as
`invalidDelete`.  Handle 0 is a no-op. -/
def nativeRelease (wld : World) (h : Nat) : Except JniError World :=
  if h = 0 then .ok wld
  else
    match wld.renderers h with
    | some _ => .ok ⟨fun k => if k = h then none else wld.renderers k⟩
    | none => .error .invalidDelete

/-- Two consecutive `nativeRelease` calls with the same handle. -/
def releaseTwice (wld : World) (h : Nat) : Except JniError World :=
  match nativeRelease wld h with
  | .ok w2 => nativeRelease w2 h
  | .error e => .error e

/-- `nativeOnSurfaceCreated`: handle 0 is rejected before any
dereference; a dangling nonzero handle is undefined behaviour. -/
def nativeOnSurfaceCreated (wld : World) (h : Nat) : Except JniError World :=
  if h = 0 then .ok wld
  else
    match wld.renderers h with
    | some st =>
        .ok ⟨fun k => if k = h then some (Renderer.onSurfaceCreated st)
                      else wld.renderers k⟩
    | none => .error .danglingHandle

/-- `nativeOnSurfaceChanged`: handle 0 is rejected before any
dereference; a dangling nonzero handle is undefined behaviour. -/
def nativeOnSurfaceChanged (wld : World) (h : Nat) (w ht : Nat) :
    Except JniError World :=
  if h = 0 then .ok wld
  else
    match wld.renderers h with
    | some st =>
        .ok ⟨fun k => if k = h then some (Renderer.onSurfaceChanged w ht st)
                      else wld.renderers k⟩
    | none => .error .danglingHandle

/-- `nativeOnCameraFrame`: handle 0 is rejected before
`GetByteArrayElements` is ever called; `arrOk` models whether
`GetByteArrayElements` succeeds (on failure the call returns having
touched nothing).  On success the native copy (contents equal to the
producer's array) is handed to `Renderer::onCameraFrame` and then
released with `JNI_ABORT`, so the producer's array is returned as the
second component. -/
def nativeOnCameraFrame (wld : World) (h : Nat) (ok arrOk : Bool)
    (data : List Nat) (w ht : Nat) :
    Except JniError (World × List Nat) :=
  if h = 0 then .ok (wld, data)
  else
    match wld.renderers h with
    | some st =>
        if arrOk then
          let (st2, native2, _ev) := Renderer.onCameraFrame ok data w ht st
          .ok (⟨fun k => if k = h then some st2 else wld.renderers k⟩,
               releaseByteArray .abort data native2)
        else .ok (wld, data)
    | none => .error .danglingHandle

/-- `nativeOnDrawFrame`: handle 0 returns before the renderer is touched,
so no GL commands are issued; otherwise the renderer draws. -/
def nativeOnDrawFrame (wld : World) (h : Nat) :
    Except JniError (World × List GLCmd) :=
  if h = 0 then .ok (wld, [])
  else
    match wld.renderers h with
    | some st =>
        let (st2, cmds) := Renderer.onDrawFrame st
        .ok (⟨fun k => if k = h then some st2 else wld.renderers k⟩, cmds)
    | none => .error .danglingHandle

/-- A uniform NV21 frame: every luma byte is `L`, every chroma byte is
the neutral value 128. -/
def uniformNV21 (w h L : Nat) : Nat → Byte :=
  fun i => if i < w * h then L else 128

/-- A freshly constructed 2×2 pipeline instance (display buffer contents
zero). -/
def stA : RendererState := (mkRenderer 2 2 (fun _ => 0)).1

/-- The same instance after a frame has been displayed
(`hasFrame_ = true`). -/
def stT : RendererState := { stA with hasFrame := true }

/-- The same instance after the processor buffers have been allocated by
a first call. -/
def stI : RendererState := { stA with proc := (initBuffers 2 2 freshProc).1 }

/-- An empty heap: no live renderer at any handle. -/
def worldZ : World := ⟨fun _ => none⟩

/-- A heap with one live renderer at handle 1. -/
def worldA : World := ⟨fun k => if k = 1 then some stA else none⟩

/-- `worldA` after handle 1 has been torn down. -/
def worldB : World := ⟨fun k => if k = 1 then none else worldA.renderers k⟩

/-! ## Helper lemmas -/

theorem initBuffers_fst_inited (w h : Nat) (ps : ProcState) :
    ((initBuffers w h ps).1).inited = true := by
  unfold initBuffers
  split
  · rename_i hp
    exact hp
  · rfl

theorem initBuffers_of_inited (w h : Nat) (ps : ProcState)
    (hp : ps.inited = true) : initBuffers w h ps = (ps, []) := by
  simp [initBuffers, hp]

theorem processFrame_events (ok : Bool) (nv : Nat → Byte) (w h : Nat)
    (ps : ProcState) (buf : Nat → Byte) :
    (processFrame ok nv w h ps buf).2.2 = (initBuffers w h ps).2 := by
  cases ok <;> rfl

theorem processFrame_fst_inited (ok : Bool) (nv : Nat → Byte) (w h : Nat)
    (ps : ProcState) (buf : Nat → Byte) :
    ((processFrame ok nv w h ps buf).1).inited = true := by
  cases ok
  · exact initBuffers_fst_inited w h ps
  · exact initBuffers_fst_inited w h ps

theorem step_hasFrame_mono (op : Op) (st : RendererState)
    (hf : st.hasFrame = true) : (step op st).hasFrame = true := by
  cases op with
  | surfaceCreated => exact hf
  | surfaceChanged w h => exact hf
  | cameraFrame ok data w h =>
      show (Renderer.onCameraFrame ok data w h st).1.hasFrame = true
      unfold Renderer.onCameraFrame
      split
      · exact hf
      · rfl
  | drawFrame => exact hf

theorem runOps_hasFrame_mono (ops : List Op) :
    ∀ st : RendererState, st.hasFrame = true →
      (runOps ops st).hasFrame = true := by
  induction ops with
  | nil => intro st hf; exact hf
  | cons op rest ih =>
      intro st hf
      exact ih (step op st) (step_hasFrame_mono op st hf)

/-! ## Claim theorems -/

/-- C2: `hasFrame_` is monotonic for every pipeline instance: it is
false at construction, becomes true on a frame delivery with matching
dimensions, and no sequence of subsequent operations (transform, upload,
draw, resize, surface re-creation) ever resets it. -/
theorem c2_hasFrame_monotonic (pw ph : Nat) (buf : Nat → Byte)
    (ops : List Op) (st : RendererState) (ok : Bool) (data : List Nat)
    (hf : st.hasFrame = true) :
    (mkRenderer pw ph buf).1.hasFrame = false
    ∧ (Renderer.onCameraFrame ok data st.previewWidth st.previewHeight st).1.hasFrame = true
    ∧ (runOps ops st).hasFrame = true := by
  refine ⟨rfl, ?_, runOps_hasFrame_mono ops st hf⟩
  have hg : ¬(st.previewWidth ≠ st.previewWidth
      ∨ st.previewHeight ≠ st.previewHeight) := by simp
  unfold Renderer.onCameraFrame
  rw [if_neg hg]

theorem c2_hasFrame_monotonic_witness :
    stT.hasFrame = true
    ∧ ((mkRenderer 1 1 (fun _ => 0)).1.hasFrame = false
       ∧ (Renderer.onCameraFrame true [] stT.previewWidth stT.previewHeight stT).1.hasFrame = true
       ∧ (runOps [Op.drawFrame, Op.surfaceCreated, Op.surfaceChanged 9 9] stT).hasFrame = true) :=
  ⟨rfl, c2_hasFrame_monotonic 1 1 (fun _ => 0)
    [Op.drawFrame, Op.surfaceCreated, Op.surfaceChanged 9 9] stT true [] rfl⟩

/-- C3: a frame delivered with dimensions different from the configured
preview resolution makes `onCameraFrame` a complete no-op: the state
(including `hasFrame_` and every buffer) is returned unchanged, the raw
input is untouched, no heap event happens, and the call returns
normally. -/
theorem c3_dimension_mismatch_noop (st : RendererState) (ok : Bool)
    (data : List Nat) (w h : Nat)
    (hmis : w ≠ st.previewWidth ∨ h ≠ st.previewHeight) :
    Renderer.onCameraFrame ok data w h st = (st, data, []) := by
  unfold Renderer.onCameraFrame
  rw [if_pos hmis]

theorem c3_dimension_mismatch_noop_witness :
    ((3 : Nat) ≠ stA.previewWidth ∨ (2 : Nat) ≠ stA.previewHeight)
    ∧ Renderer.onCameraFrame true [] 3 2 stA = (stA, [], []) :=
  ⟨Or.inl (by decide),
   c3_dimension_mismatch_noop stA true [] 3 2 (Or.inl (by decide))⟩

/-- C4: the claim that repeated `release()` with the same handle is a
safe no-op fails on the code: `nativeRelease` performs `delete`
unconditionally for every nonzero handle, so the second call with the
same still-nonzero handle deletes a pointer that is no longer a live
allocation — a double delete, which is undefined behaviour rather than a
no-op.  Evaluated here at a heap with one live renderer at handle 1: the
first release succeeds and tears it down, the second is an invalid
delete. -/
theorem c4_double_release_is_double_delete :
    nativeRelease worldA 1 = Except.ok worldB
    ∧ releaseTwice worldA 1 = Except.error JniError.invalidDelete :=
  ⟨rfl, rfl⟩

/-- C7: before any frame arrives (`hasFrame_ = false`), `draw()` only
clears the screen to opaque black — its GL trace is exactly the clear
commands, so the texture, shader program and vertex buffer are never
bound or used — and the pipeline state is returned unchanged. -/
theorem c7_draw_blank_before_first_frame (st : RendererState)
    (hf : st.hasFrame = false) :
    (Renderer.onDrawFrame st).1 = st
    ∧ (Renderer.onDrawFrame st).2 = [GLCmd.clearColor 0 0 0 1, GLCmd.clear] := by
  refine ⟨rfl, ?_⟩
  simp [Renderer.onDrawFrame, hf]

theorem c7_draw_blank_before_first_frame_witness :
    stA.hasFrame = false
    ∧ ((Renderer.onDrawFrame stA).1 = stA
       ∧ (Renderer.onDrawFrame stA).2 = [GLCmd.clearColor 0 0 0 1, GLCmd.clear]) :=
  ⟨rfl, c7_draw_blank_before_first_frame stA rfl⟩

/-- C8: `draw()` never mutates the pipeline state, so calling it any
number of times without an intervening frame delivery issues the same
command trace (rendering the same last-uploaded content) each time. -/
theorem c8_draw_idempotent (st : RendererState) (n : Nat) :
    (Renderer.onDrawFrame st).1 = st
    ∧ (Renderer.onDrawFrame ((fun s => (Renderer.onDrawFrame s).1)^[n] st)).2
        = (Renderer.onDrawFrame st).2 := by
  refine ⟨rfl, ?_⟩
  rw [Function.iterate_fixed rfl n]

/-- C10: every boundary entry point is a safe no-op on the invalid
handle 0: each checks the handle before any dereference and returns with
the heap unchanged (and, for frame delivery and draw, with the
producer's array unchanged and no GL commands issued). -/
theorem c10_handle_zero_safe (wld : World) (w h : Nat) (ok arrOk : Bool)
    (data : List Nat) :
    nativeOnSurfaceCreated wld 0 = Except.ok wld
    ∧ nativeOnSurfaceChanged wld 0 w h = Except.ok wld
    ∧ nativeOnCameraFrame wld 0 ok arrOk data w h = Except.ok (wld, data)
    ∧ nativeOnDrawFrame wld 0 = Except.ok (wld, [])
    ∧ nativeRelease wld 0 = Except.ok wld :=
  ⟨rfl, rfl, rfl, rfl, rfl⟩

/-- C1 fails as stated: on a failing transform, `onCameraFrame` has no
way to learn of the failure (`processFrame` swallows it and returns
normally), so it still uploads the buffer and sets `hasFrame_ = true`.
On a fresh instance whose very first frame fails, `hasFrame_` moves from
false to true, so the previous displayable state (no displayable frame)
is not retained. -/
theorem c1_failed_first_frame_sets_hasFrame :
    stA.hasFrame = false
    ∧ (Renderer.onCameraFrame false (List.replicate 6 100) 2 2 stA).1.hasFrame = true :=
  ⟨rfl, rfl⟩

/-- C1 (amended): when the transform fails inside the image library, the
failure is caught and the call returns normally (never propagating to
the caller), and the cycle writes nothing to the display buffer — the
texture is re-uploaded with the unchanged previous buffer contents and
the raw input is untouched — but `onCameraFrame` still performs the
upload and sets `hasFrame_ = true`, so the flag is not retained when it
was previously false. -/
theorem c1_transform_failure_contained (st : RendererState)
    (data : List Nat) (w h : Nat)
    (hw : w = st.previewWidth) (hh : h = st.previewHeight) :
    (Renderer.onCameraFrame false data w h st).1.rgbaBuffer = st.rgbaBuffer
    ∧ (Renderer.onCameraFrame false data w h st).1.textureContents = some st.rgbaBuffer
    ∧ (Renderer.onCameraFrame false data w h st).1.hasFrame = true
    ∧ (Renderer.onCameraFrame false data w h st).2.1 = data := by
  subst hw hh
  have hg : ¬(st.previewWidth ≠ st.previewWidth
      ∨ st.previewHeight ≠ st.previewHeight) := by simp
  refine ⟨?_, ?_, ?_, ?_⟩ <;>
    · unfold Renderer.onCameraFrame
      rw [if_neg hg]
      try rfl

theorem c1_transform_failure_contained_witness :
    (2 : Nat) = stA.previewWidth ∧ (2 : Nat) = stA.previewHeight
    ∧ ((Renderer.onCameraFrame false [7] 2 2 stA).1.rgbaBuffer = stA.rgbaBuffer
       ∧ (Renderer.onCameraFrame false [7] 2 2 stA).1.textureContents = some stA.rgbaBuffer
       ∧ (Renderer.onCameraFrame false [7] 2 2 stA).1.hasFrame = true
       ∧ (Renderer.onCameraFrame false [7] 2 2 stA).2.1 = [7]) :=
  ⟨rfl, rfl, c1_transform_failure_contained stA [7] 2 2 rfl rfl⟩

/-- C6: the display buffer is allocated exactly once at construction and
the four processor scratch buffers exactly once on the first transform
call; once the processor state is warm (`inited = true`), a transform
call performs no heap event at all (zero allocations and zero frees, so
buffers are reused and never freed before teardown), and the state stays
warm, so the same holds for every subsequent call. -/
theorem c6_steady_state_zero_alloc (pw ph w h : Nat) (buf : Nat → Byte)
    (data : List Nat) (ok : Bool) (st : RendererState) (ps : ProcState)
    (hwarm : st.proc.inited = true) (hcold : ps.inited = false) :
    (mkRenderer pw ph buf).2 = [HeapEvent.alloc .rgbaBuffer (pw * ph * 4)]
    ∧ (initBuffers w h ps).2 =
        [ HeapEvent.alloc .yuvMat ((h + h / 2) * w)
        , HeapEvent.alloc .rgbaMat (w * h * 4)
        , HeapEvent.alloc .grayMat (w * h)
        , HeapEvent.alloc .edgesMat (w * h) ]
    ∧ (initBuffers w h (initBuffers w h ps).1).2 = []
    ∧ (Renderer.onCameraFrame ok data w h st).2.2 = []
    ∧ (Renderer.onCameraFrame ok data w h st).1.proc.inited = true := by
  refine ⟨rfl, by simp [initBuffers, hcold], ?_, ?_, ?_⟩
  · rw [initBuffers_of_inited w h _ (initBuffers_fst_inited w h ps)]
  · unfold Renderer.onCameraFrame
    split
    · rfl
    · show (processFrame ok (fun i => data.getD i 0) w h st.proc st.rgbaBuffer).2.2 = []
      rw [processFrame_events, initBuffers_of_inited w h st.proc hwarm]
  · unfold Renderer.onCameraFrame
    split
    · exact hwarm
    · exact processFrame_fst_inited ok _ w h st.proc st.rgbaBuffer

theorem c6_steady_state_zero_alloc_witness :
    stI.proc.inited = true ∧ freshProc.inited = false
    ∧ ((mkRenderer 2 2 (fun _ => 0)).2 = [HeapEvent.alloc .rgbaBuffer (2 * 2 * 4)]
       ∧ (initBuffers 2 2 freshProc).2 =
           [ HeapEvent.alloc .yuvMat ((2 + 2 / 2) * 2)
           , HeapEvent.alloc .rgbaMat (2 * 2 * 4)
           , HeapEvent.alloc .grayMat (2 * 2)
           , HeapEvent.alloc .edgesMat (2 * 2) ]
       ∧ (initBuffers 2 2 (initBuffers 2 2 freshProc).1).2 = []
       ∧ (Renderer.onCameraFrame true [9] 2 2 stI).2.2 = []
       ∧ (Renderer.onCameraFrame true [9] 2 2 stI).1.proc.inited = true) :=
  ⟨rfl, rfl,
   c6_steady_state_zero_alloc 2 2 2 2 (fun _ => 0) [9] true stI freshProc rfl rfl⟩

/-- C9: the raw NV21 input is read-only end to end: the renderer returns
the native byte-array copy unchanged (the processor only reads it
through a `const` pointer), and the boundary releases the array with
`JNI_ABORT`, so whenever `nativeOnCameraFrame` returns successfully the
producer's array is exactly the array that was passed in. -/
theorem c9_raw_frame_read_only (wld : World) (hd : Nat) (ok arrOk : Bool)
    (data : List Nat) (w ht : Nat) (res : World × List Nat)
    (hres : nativeOnCameraFrame wld hd ok arrOk data w ht = Except.ok res)
    (st : RendererState) :
    res.2 = data ∧ (Renderer.onCameraFrame ok data w ht st).2.1 = data := by
  constructor
  · unfold nativeOnCameraFrame at hres
    by_cases h0 : hd = 0
    · rw [if_pos h0] at hres
      cases hres
      rfl
    · rw [if_neg h0] at hres
      cases hw : wld.renderers hd with
      | none => rw [hw] at hres; cases hres
      | some st1 =>
          rw [hw] at hres
          cases arrOk with
          | false => simp only [Bool.false_eq_true, if_false] at hres; cases hres; rfl
          | true =>
              simp only [if_true] at hres
              cases hres
              rfl
  · unfold Renderer.onCameraFrame
    split
    · rfl
    · rfl

theorem c9_raw_frame_read_only_witness :
    nativeOnCameraFrame worldZ 0 true true [1, 2, 3] 2 2 = Except.ok (worldZ, [1, 2, 3])
    ∧ ((worldZ, [1, 2, 3]).2 = [1, 2, 3]
       ∧ (Renderer.onCameraFrame true [1, 2, 3] 2 2 stA).2.1 = [1, 2, 3]) :=
  ⟨rfl, c9_raw_frame_read_only worldZ 0 true true [1, 2, 3] 2 2
          (worldZ, [1, 2, 3]) rfl stA⟩

/-! ## Lemmas for the EdgeDetect / uniform-frame claim -/

theorem clampi_lt (n : Nat) (hn : 0 < n) (i : Int) : clampi n i < n := by
  unfold clampi
  have h1 : min ((n : Int) - 1) i ≤ (n : Int) - 1 := min_le_left _ _
  have h2 : (0 : Int) ≤ max 0 (min ((n : Int) - 1) i) := le_max_left _ _
  have h3 : max 0 (min ((n : Int) - 1) i) ≤ (n : Int) - 1 :=
    max_le (by omega) h1
  omega

theorem pix_const (img : Nat → Nat → Byte) (w h : Nat) (g : Byte)
    (hg : ∀ x y : Nat, x < w → y < h → img x y = g)
    (hw : 0 < w) (hh : 0 < h) (xi yi : Int) :
    pix img w h xi yi = (g : Int) := by
  unfold pix
  rw [hg (clampi w xi) (clampi h yi) (clampi_lt w hw xi) (clampi_lt h hh yi)]

theorem gradMag_const (img : Nat → Nat → Byte) (w h : Nat) (g : Byte)
    (hg : ∀ x y : Nat, x < w → y < h → img x y = g)
    (hw : 0 < w) (hh : 0 < h) (x y : Nat) :
    gradMag img w h x y = 0 := by
  simp [gradMag, sobelX, sobelY, pix_const img w h g hg hw hh]

theorem cannyPix_const (img : Nat → Nat → Byte) (w h : Nat) (g : Byte)
    (hg : ∀ x y : Nat, x < w → y < h → img x y = g)
    (hw : 0 < w) (hh : 0 < h) (x y : Nat) :
    cannyPix img w h 80 160 x y = 0 := by
  simp [cannyPix, gradMag_const img w h g hg hw hh]

theorem lumaIdx_lt {w h x y : Nat} (hx : x < w) (hy : y < h) :
    y * w + x < w * h := by
  calc y * w + x < y * w + w := Nat.add_lt_add_left hx _
    _ = (y + 1) * w := by ring
    _ ≤ h * w := Nat.mul_le_mul_right w hy
    _ = w * h := Nat.mul_comm h w

theorem uniformNV21_Y (w h L x y : Nat) (hx : x < w) (hy : y < h) :
    nv21Y (uniformNV21 w h L) w x y = L := by
  unfold nv21Y uniformNV21
  rw [if_pos (lumaIdx_lt hx hy)]

theorem uniformNV21_V (w h L x y : Nat) :
    nv21V (uniformNV21 w h L) w h x y = 128 := by
  unfold nv21V uniformNV21
  rw [if_neg (by omega)]

theorem uniformNV21_U (w h L x y : Nat) :
    nv21U (uniformNV21 w h L) w h x y = 128 := by
  unfold nv21U uniformNV21
  rw [if_neg (by omega)]

theorem uniform_gray_const (w h L : Nat) :
    ∀ x y : Nat, x < w → y < h →
      rgba2gray (nv21ToRgba (uniformNV21 w h L) w h x y)
        = rgba2gray (yuvPix L 128 128) := by
  intro x y hx hy
  unfold nv21ToRgba
  rw [uniformNV21_Y w h L x y hx hy, uniformNV21_V, uniformNV21_U]

/-- In `MODE_CANNY` the output buffer written by `processFrame` is the
flattened gray-to-RGBA re-expansion of the edge map of the desaturated
converted frame (definitional unrolling of the `MODE_CANNY` branch). -/
theorem processFrame_canny_out (nv : Nat → Byte) (w h : Nat)
    (ps : ProcState) (buf : Nat → Byte) :
    (processFrame true nv w h ps buf).2.1
      = fun i => if i < w * h * 4 then
          flattenRGBA (fun x y => gray2rgba
            (cannyPix (fun a b => rgba2gray (nv21ToRgba nv w h a b))
              w h 80 160 x y)) w i
        else buf i := rfl

/-- C5 fails as stated: the gray → RGBA re-expansion of the edge map
sets every alpha byte to 255, so on a uniform 2×2 frame the output
buffer is not all-zero — byte 3 (the first pixel's alpha) is 255. -/
theorem c5_uniform_output_not_all_zero :
    (processFrame true (uniformNV21 2 2 100) 2 2 freshProc (fun _ => 0)).2.1 3 = 255
    ∧ ¬ (∀ i : Nat, i < 2 * 2 * 4 →
          (processFrame true (uniformNV21 2 2 100) 2 2 freshProc (fun _ => 0)).2.1 i = 0) := by
  have hout : (processFrame true (uniformNV21 2 2 100) 2 2 freshProc (fun _ => 0)).2.1 3 = 255 := by
    decide
  refine ⟨hout, fun hall => ?_⟩
  have h0 := hall 3 (by omega)
  rw [hout] at h0
  exact absurd h0 (by decide)

/-- C5 (amended): in EdgeDetect mode, a frame of uniform luma and
neutral chroma has no gradient anywhere, so the edge map is zero and
every output pixel is opaque black `(0,0,0,255)`: every color-channel
byte of the output buffer is 0 and every alpha byte is 255 (the spec's
own Grayscale clause fixes the re-expansion's alpha at 255), rather
than the buffer being all-zero. -/
theorem c5_uniform_frame_opaque_black (w h L : Nat) (hw : 0 < w)
    (hh : 0 < h) (ps : ProcState) (buf : Nat → Byte) (i : Nat)
    (hi : i < w * h * 4) :
    (processFrame true (uniformNV21 w h L) w h ps buf).2.1 i
      = if i % 4 = 3 then 255 else 0 := by
  rw [processFrame_canny_out]
  have hcp : ∀ x y : Nat,
      cannyPix (fun a b => rgba2gray (nv21ToRgba (uniformNV21 w h L) w h a b))
        w h 80 160 x y = 0 :=
    cannyPix_const _ w h (rgba2gray (yuvPix L 128 128))
      (uniform_gray_const w h L) hw hh
  simp only []
  rw [if_pos hi]
  unfold flattenRGBA
  simp only [hcp]
  have h4 : i % 4 = 0 ∨ i % 4 = 1 ∨ i % 4 = 2 ∨ i % 4 = 3 := by omega
  rcases h4 with h4 | h4 | h4 | h4 <;> rw [h4] <;> rfl

theorem c5_uniform_frame_opaque_black_witness :
    0 < 2 ∧ 0 < 2 ∧ 3 < 2 * 2 * 4
    ∧ (processFrame true (uniformNV21 2 2 7) 2 2 freshProc (fun _ => 0)).2.1 3
        = if 3 % 4 = 3 then 255 else 0 :=
  ⟨by decide, by decide, by decide,
   c5_uniform_frame_opaque_black 2 2 7 (by decide) (by decide) freshProc
     (fun _ => 0) 3 (by decide)⟩

end OpenCvFlam
